import Mathlib

/-!
Shallow embedding of the job-orchestration core of `src/routes/deduper.py`
(NewsNexusPythonQueuer01).

Modelling conventions:
- Machine time is abstracted to `Nat` ticks passed in by the caller; the source
  calls `datetime.now(timezone.utc).isoformat()` at each write point.
- The in-memory dict `jobs` (module line 13) is an association list
  `List (Nat × Job)` in insertion order, matching Python dict iteration order;
  keys are the integer ids produced by `create_job_id`.
- Flask route parameters declared as bare `<job_id>` arrive as `str` values
  (Flask's default URL converter); `PyKey` models a Python dict-lookup key and
  `pyKeyMatches` models Python `==` between a key and an `int` dict key: in
  Python, `"1" == 1` is `False`, so a `str` key never matches an `int` key.
- `os.getenv` results are `Option String`; Python truthiness of such a value
  (`if not deduper_path`) is `truthy`.
- The child process is an external collaborator: its behaviour is an oracle
  parameter (`SpawnOutcome` / `ClearOutcome`), and liveness checks
  (`poll() is None`) are Boolean oracle parameters.
-/

/-- States of `class JobStatus` (deduper.py lines 17-22). -/
inductive JobStatus
  | pending
  | running
  | completed
  | failed
  | cancelled
deriving DecidableEq, Repr

/-- Python test `job['status'] in [JobStatus.PENDING, JobStatus.RUNNING]`
(deduper.py lines 217 and 329). -/
def isActiveStatus (s : JobStatus) : Bool :=
  s == JobStatus.pending || s == JobStatus.running

/-- One entry of the `jobs` dict. Fields mirror the keys written by the source:
`id`, `reportId`, `status`, `created_at`, `started_at`, `completed_at`,
`exit_code`, `error`; `process` records whether a process handle has been
published into the record (line 72). The `logs` key is written once as `[]`
and never touched again, so it is omitted. -/
structure Job where
  id : Nat
  reportId : Option Nat
  status : JobStatus
  created_at : Nat
  started_at : Option Nat
  completed_at : Option Nat
  exit_code : Option Int
  error : Option String
  process : Bool
deriving DecidableEq, Repr

/-- Configuration read from the environment: `PATH_TO_MICROSERVICE_DEDUPER`,
`PATH_TO_PYTHON_VENV`, `NAME_CHILD_PROCESS_DEDUPER`. `none` models an unset
variable. -/
structure Config where
  deduper_path : Option String
  python_venv : Option String
  child_process_name : Option String
deriving DecidableEq, Repr

/-- Python truthiness of an `os.getenv` result: `None` and `""` are falsy. -/
def truthy : Option String → Bool
  | none => false
  | some s => !(s == "")

/-- Function `create_job_id` (deduper.py lines 24-28): returns the current
counter and the incremented counter that replaces the global `job_counter`. -/
def create_job_id (job_counter : Nat) : Nat × Nat :=
  (job_counter, job_counter + 1)

/-- Ids produced by `n` successive calls of `create_job_id` starting from
counter value `c`. The module initialises `job_counter = 1` (line 15). -/
def allocIds : Nat → Nat → List Nat
  | _, 0 => []
  | c, Nat.succ n =>
    let p := create_job_id c
    p.1 :: allocIds p.2 n

/-- The mutable module state: `job_counter` (line 15) and `jobs` (line 13). -/
structure RegState where
  job_counter : Nat
  jobs : List (Nat × Job)
deriving DecidableEq, Repr

/-- Module state at import time: `jobs = {}`, `job_counter = 1`. -/
def initialState : RegState :=
  { job_counter := 1, jobs := [] }

/-- The record inserted by `create_deduper_job` (deduper.py lines 99-104):
status PENDING, `created_at` set, nothing else. -/
def newJob (id t : Nat) : Job :=
  { id := id
    reportId := none
    status := JobStatus.pending
    created_at := t
    started_at := none
    completed_at := none
    exit_code := none
    error := none
    process := false }

/-- Handler `create_deduper_job` (deduper.py lines 93-116): allocate an id,
insert a PENDING record, return the id (the spawned supervisor thread is
modelled separately by `run_deduper_job`). -/
def create_deduper_job (st : RegState) (t : Nat) : Nat × RegState :=
  let p := create_job_id st.job_counter
  (p.1, { job_counter := p.2, jobs := st.jobs ++ [(p.1, newJob p.1 t)] })

/-- A Python value used to index the `jobs` dict: either an `int` (as stored
by the creation handlers) or a `str` (as produced by Flask's default URL
converter for `<job_id>`). -/
inductive PyKey
  | int (n : Nat)
  | str (s : String)
deriving DecidableEq, Repr

/-- Python `==` between a lookup key and an `int` dict key: two ints compare
numerically; a `str` never equals an `int` (`"1" == 1` is `False`). -/
def pyKeyMatches : PyKey → Nat → Bool
  | PyKey.int m, n => m == n
  | PyKey.str _, _ => false

/-- Dict lookup `jobs[job_id]` / membership `job_id in jobs` (the dict holds
only `int` keys, see `create_deduper_job`). -/
def jobsLookup (jobs : List (Nat × Job)) (k : PyKey) : Option Job :=
  (jobs.find? (fun p => pyKeyMatches k p.1)).map Prod.snd

/-- In-place mutation of the record stored under key `k`. -/
def updateJobs (jobs : List (Nat × Job)) (k : PyKey) (f : Job → Job) :
    List (Nat × Job) :=
  jobs.map (fun p => if pyKeyMatches k p.1 then (p.1, f p.2) else p)

/-- Behaviour of the spawned child process, an external collaborator:
it either runs and exits with a code, or the spawn/wait raises. -/
inductive SpawnOutcome
  | exits (code : Int)
  | raises (msg : String)
deriving DecidableEq, Repr

/-- The supervisor's first writes (deduper.py lines 33-34), performed
unconditionally before any configuration check: status RUNNING and
`started_at`. -/
def markRunning (j : Job) (t : Nat) : Job :=
  { j with status := JobStatus.running, started_at := some t }

/-- The `except` block of `run_deduper_job` (deduper.py lines 87-91):
status FAILED, `error` set to the exception text, `completed_at` recorded. -/
def failWith (j : Job) (msg : String) (t : Nat) : Job :=
  { j with
    status := JobStatus.failed
    error := some msg
    completed_at := some t }

/-- Thread body `run_deduper_job` (deduper.py lines 30-91) as a function from
the job record to its final value. Order follows the source: mark RUNNING
(lines 33-34); check `PATH_TO_MICROSERVICE_DEDUPER` / `PATH_TO_PYTHON_VENV`
(lines 37-41, raising lands in the `except` block); check
`NAME_CHILD_PROCESS_DEDUPER` (lines 55-57); spawn, publish the handle
(line 72), wait, record `exit_code` and `completed_at`, and map exit 0 to
COMPLETED and nonzero to FAILED (lines 75-85) without touching `error`. -/
def run_deduper_job (cfg : Config) (outcome : SpawnOutcome) (j : Job)
    (tStart tEnd : Nat) : Job :=
  let j1 := markRunning j tStart
  if !truthy cfg.deduper_path || !truthy cfg.python_venv then
    failWith j1 "Missing environment variables for deduper or python venv" tEnd
  else if !truthy cfg.child_process_name then
    failWith j1 "NAME_CHILD_PROCESS_DEDUPER environment variable is required" tEnd
  else
    match outcome with
    | SpawnOutcome.raises msg => failWith j1 msg tEnd
    | SpawnOutcome.exits code =>
      let j2 :=
        { j1 with
          process := true
          exit_code := some code
          completed_at := some tEnd }
      if code == 0 then { j2 with status := JobStatus.completed }
      else { j2 with status := JobStatus.failed }

/-- Successive values of the shared record `jobs[job_id]` during one run of
`run_deduper_job`, sampled after the unconditional RUNNING write of
lines 33-34 and at the end of the thread body. Every listed record is a
state of the shared dict entry that concurrent readers can observe. -/
def run_deduper_job_phases (cfg : Config) (outcome : SpawnOutcome) (j : Job)
    (tStart tEnd : Nat) : List Job :=
  [markRunning j tStart, run_deduper_job cfg outcome j tStart tEnd]

/-- A fully populated configuration used in concrete evaluations. -/
def cfgFull : Config :=
  { deduper_path := some "/opt/deduper"
    python_venv := some "/opt/venv"
    child_process_name := some "deduper-child" }

/-- A configuration with the worker path unset. -/
def cfgNoPath : Config :=
  { deduper_path := none
    python_venv := some "/opt/venv"
    child_process_name := some "deduper-child" }

/-- A configuration with only the child-process identity token unset. -/
def cfgNoChild : Config :=
  { deduper_path := some "/opt/deduper"
    python_venv := some "/opt/venv"
    child_process_name := none }


/-- Result of handler `cancel_job` (deduper.py lines 204-252):
JOB_NOT_FOUND with HTTP 404, INVALID_JOB_STATE with HTTP 400, success,
or JOB_CANCELLATION_FAILED with HTTP 500 when killing raises. -/
inductive CancelResult
  | notFound
  | invalidState (s : JobStatus)
  | ok
  | cancellationFailed
deriving DecidableEq, Repr

/-- The successful-cancellation writes (deduper.py lines 234-235, and
lines 339-340 in the bulk-clear loop): status CANCELLED, `completed_at`. -/
def cancelRecord (j : Job) (t : Nat) : Job :=
  { j with status := JobStatus.cancelled, completed_at := some t }

/-- Handler `cancel_job` (deduper.py lines 204-252). `raisesKill` is the
oracle for an exception in the terminate/kill block (lines 225-232). -/
def cancel_job (st : RegState) (k : PyKey) (raisesKill : Bool) (t : Nat) :
    CancelResult × RegState :=
  match jobsLookup st.jobs k with
  | none => (CancelResult.notFound, st)
  | some j =>
    if !isActiveStatus j.status then
      (CancelResult.invalidState j.status, st)
    else if raisesKill then
      (CancelResult.cancellationFailed, st)
    else
      (CancelResult.ok,
       { st with jobs := updateJobs st.jobs k (fun j0 => cancelRecord j0 t) })

/-- The cancel route as reached over HTTP: the rule `<job_id>` uses Flask's
default converter, so the handler receives the id as a `str`. -/
def cancel_job_http (st : RegState) (idStr : String) (raisesKill : Bool)
    (t : Nat) : CancelResult × RegState :=
  cancel_job st (PyKey.str idStr) raisesKill t

/-- The JSON body built by `get_job_status` (deduper.py lines 173-199):
always `jobId`, `status`, `createdAt`; the remaining keys only when present
on the record (`stdout` and `stderr` are never written by this module). -/
structure JobSnapshot where
  jobId : PyKey
  status : JobStatus
  createdAt : Nat
  reportId : Option Nat
  startedAt : Option Nat
  completedAt : Option Nat
  exitCode : Option Int
  error : Option String
deriving DecidableEq, Repr

/-- Result of handler `get_job_status`: a snapshot, or JOB_NOT_FOUND 404. -/
inductive GetJobResult
  | notFound
  | found (s : JobSnapshot)
deriving DecidableEq, Repr

/-- Handler `get_job_status` (deduper.py lines 163-202). -/
def get_job_status (jobs : List (Nat × Job)) (k : PyKey) : GetJobResult :=
  match jobsLookup jobs k with
  | none => GetJobResult.notFound
  | some j =>
    GetJobResult.found
      { jobId := k
        status := j.status
        createdAt := j.created_at
        reportId := j.reportId
        startedAt := j.started_at
        completedAt := j.completed_at
        exitCode := j.exit_code
        error := j.error }

/-- The get route as reached over HTTP: `<job_id>` arrives as a `str`. -/
def get_job_status_http (jobs : List (Nat × Job)) (idStr : String) :
    GetJobResult :=
  get_job_status jobs (PyKey.str idStr)

/-- Observable process-control calls issued by a cancellation path. -/
inductive ProcAction
  | terminate
  | sleepMs (ms : Nat)
  | kill
deriving DecidableEq, Repr

/-- Process-control calls of `cancel_job` (deduper.py lines 227-232):
if a handle exists and `poll()` is `None`, call `terminate()`, sleep 1 second,
and call `kill()` only if `poll()` is still `None` afterwards. `live` is the
oracle for the first poll, `aliveAfterGrace` for the second. -/
def cancel_kill_actions (live aliveAfterGrace : Bool) : List ProcAction :=
  if live then
    ProcAction.terminate :: ProcAction.sleepMs 1000 ::
      (if aliveAfterGrace then [ProcAction.kill] else [])
  else []

/-- Process-control calls of one bulk-clear iteration (deduper.py
lines 332-337): same shape, but the sleep is `time.sleep(0.5)`. -/
def clear_kill_actions (live aliveAfterGrace : Bool) : List ProcAction :=
  if live then
    ProcAction.terminate :: ProcAction.sleepMs 500 ::
      (if aliveAfterGrace then [ProcAction.kill] else [])
  else []

/-- Duration of the first sleep in a process-control call sequence. -/
def graceMs : List ProcAction → Option Nat
  | [] => none
  | ProcAction.sleepMs ms :: _ => some ms
  | _ :: rest => graceMs rest

/-- Per-entry effect of the bulk-clear cancellation loop (deduper.py
lines 328-343): a PENDING/RUNNING job whose kill block does not raise is
cancelled; every other entry is left unchanged. -/
def clearCancelStep (throwsOn : Nat → Bool) (t : Nat) (p : Nat × Job) :
    Nat × Job :=
  if isActiveStatus p.2.status && !throwsOn p.1 then (p.1, cancelRecord p.2 t)
  else p

/-- The bulk-clear cancellation loop (deduper.py lines 327-343): walks the
dict in order, cancelling each PENDING/RUNNING job and appending its id to
`cancelled_jobs`; an exception for one job (oracle `throwsOn`) skips that job
but does not abort the loop. Returns the mutated dict and `cancelled_jobs`. -/
def clearCancelLoop (throwsOn : Nat → Bool) (t : Nat) :
    List (Nat × Job) → List (Nat × Job) × List Nat
  | [] => ([], [])
  | p :: rest =>
    let r := clearCancelLoop throwsOn t rest
    if isActiveStatus p.2.status then
      if throwsOn p.1 then (p :: r.1, r.2)
      else ((p.1, cancelRecord p.2 t) :: r.1, p.1 :: r.2)
    else (p :: r.1, r.2)

/-- Behaviour of the synchronous `clear_table` subprocess (deduper.py
lines 365-371): it exits with a code and captured output, or the 60-second
timeout expires. -/
inductive ClearOutcome
  | exits (code : Int) (stdout stderr : String)
  | timesOut
deriving DecidableEq, Repr

/-- The 200 response body of `clear_db_table` (deduper.py lines 374-381). -/
structure ClearResponse where
  cleared : Bool
  cancelledJobs : List Nat
  exitCode : Int
  stdout : String
  stderr : String
  timestamp : Nat
deriving DecidableEq, Repr

/-- Results of handler `clear_db_table`: success, or one of the error
envelopes MISSING_CONFIGURATION, CLEAR_TABLE_FAILED, CLEAR_TABLE_TIMEOUT and
INTERNAL_ERROR (all HTTP 500); the error payloads keep the fields the source
puts into `details`. -/
inductive ClearRouteResult
  | ok (resp : ClearResponse)
  | missingConfiguration
  | clearTableFailed (exitCode : Int) (cancelledJobs : List Nat)
      (stdout stderr : String)
  | clearTableTimeout (cancelledJobs : List Nat)
  | internalError (cancelledJobs : List Nat) (msg : String)
deriving DecidableEq, Repr

/-- Handler `clear_db_table` (deduper.py lines 310-418). Order follows the
source: check `PATH_TO_MICROSERVICE_DEDUPER` / `PATH_TO_PYTHON_VENV` before
anything else (lines 315-324); run the cancellation loop (lines 327-343);
check `NAME_CHILD_PROCESS_DEDUPER` (lines 353-355, a `ValueError` caught by
the catch-all `except` as INTERNAL_ERROR, after the loop already mutated the
registry); run the subprocess and branch on timeout / exit code
(lines 365-398). `tCancel` is the cancellation-loop clock, `tResp` the
response-build clock. -/
def clear_db_table (cfg : Config) (throwsOn : Nat → Bool)
    (outcome : ClearOutcome) (jobs : List (Nat × Job)) (tCancel tResp : Nat) :
    ClearRouteResult × List (Nat × Job) :=
  if !truthy cfg.deduper_path || !truthy cfg.python_venv then
    (ClearRouteResult.missingConfiguration, jobs)
  else
    let r := clearCancelLoop throwsOn tCancel jobs
    if !truthy cfg.child_process_name then
      (ClearRouteResult.internalError r.2
        "NAME_CHILD_PROCESS_DEDUPER environment variable is required", r.1)
    else
      match outcome with
      | ClearOutcome.timesOut => (ClearRouteResult.clearTableTimeout r.2, r.1)
      | ClearOutcome.exits code out err =>
        let resp : ClearResponse :=
          { cleared := code == 0
            cancelledJobs := r.2
            exitCode := code
            stdout := out
            stderr := err
            timestamp := tResp }
        if code == 0 then (ClearRouteResult.ok resp, r.1)
        else (ClearRouteResult.clearTableFailed code r.2 out err, r.1)

/-- The JSON body of `health_check` (deduper.py lines 275-297): overall
status string, the two configuration-presence flags, the optional
`deduper_path_exists` flag, and the per-status job counts. -/
structure HealthReport where
  status : String
  deduper_path_configured : Bool
  python_venv_configured : Bool
  deduper_path_exists : Option Bool
  total : Nat
  pending : Nat
  running : Nat
  completed : Nat
  failed : Nat
  cancelled : Nat
deriving DecidableEq, Repr

/-- The count expression `len([j for j in jobs.values() if j['status'] == s])`
(deduper.py lines 284-288). -/
def statusCountIn (jobs : List (Nat × Job)) (s : JobStatus) : Nat :=
  (jobs.filter (fun p => p.2.status == s)).length

/-- Independent recursive count of records with a given status, used to state
the health-report claim against a definition other than the one inside
`health_check`. -/
def countWithStatus (s : JobStatus) : List (Nat × Job) → Nat
  | [] => 0
  | p :: rest => (if p.2.status == s then 1 else 0) + countWithStatus s rest

/-- Handler `health_check` (deduper.py lines 267-299). `pathExists` is the
`os.path.exists` oracle. The status flips to `"unhealthy"` exactly in the
branch `if deduper_path and not os.path.exists(deduper_path)` (line 293). -/
def health_check (cfg : Config) (pathExists : String → Bool)
    (jobs : List (Nat × Job)) : HealthReport :=
  let base : HealthReport :=
    { status := "healthy"
      deduper_path_configured := truthy cfg.deduper_path
      python_venv_configured := truthy cfg.python_venv
      deduper_path_exists := none
      total := jobs.length
      pending := statusCountIn jobs JobStatus.pending
      running := statusCountIn jobs JobStatus.running
      completed := statusCountIn jobs JobStatus.completed
      failed := statusCountIn jobs JobStatus.failed
      cancelled := statusCountIn jobs JobStatus.cancelled }
  match cfg.deduper_path with
  | none => base
  | some p =>
    if p == "" then base
    else if !pathExists p then
      { base with deduper_path_exists := some false, status := "unhealthy" }
    else { base with deduper_path_exists := some true }

/-- The health route as a state transformer: the handler only reads the
registry, so it returns the state it was given. -/
def health_route (cfg : Config) (pathExists : String → Bool) (st : RegState) :
    HealthReport × RegState :=
  (health_check cfg pathExists st.jobs, st)

/-- Condition of deduper.py line 293: the worker path is configured (truthy)
and `os.path.exists` reports it missing. -/
def pathMissing (cfg : Config) (pathExists : String → Bool) : Bool :=
  match cfg.deduper_path with
  | none => false
  | some p => !(p == "") && !pathExists p

/-- A demonstration registry: jobs 1 and 3 are PENDING/RUNNING, job 2 is
COMPLETED. -/
def demoJobs : List (Nat × Job) :=
  [(1, newJob 1 0),
   (2, { newJob 2 0 with status := JobStatus.completed }),
   (3, markRunning (newJob 3 0) 1)]

/-- Iterating `create_job_id` from counter `c` yields the ids
`c, c + 1, ..., c + n - 1`. -/
theorem allocIds_eq_range' (n : Nat) : ∀ c, allocIds c n = List.range' c n := by
  induction n with
  | zero => intro c; rfl
  | succ n ih =>
    intro c
    simp [allocIds, create_job_id, List.range'_succ, ih]

/-- The bulk-clear cancellation loop is the entrywise `clearCancelStep`
together with the ids of the entries it actually cancelled. -/
theorem clearCancelLoop_eq (throwsOn : Nat → Bool) (t : Nat)
    (jobs : List (Nat × Job)) :
    clearCancelLoop throwsOn t jobs =
      (jobs.map (clearCancelStep throwsOn t),
       (jobs.filter
          (fun p => isActiveStatus p.2.status && !throwsOn p.1)).map
         Prod.fst) := by
  induction jobs with
  | nil => rfl
  | cons p rest ih =>
    by_cases hA : isActiveStatus p.2.status = true
    · by_cases hT : throwsOn p.1 = true
      · simp [clearCancelLoop, clearCancelStep, List.filter_cons, hA, hT, ih]
      · simp only [Bool.not_eq_true] at hT
        simp [clearCancelLoop, clearCancelStep, List.filter_cons, hA, hT, ih]
    · simp only [Bool.not_eq_true] at hA
      simp [clearCancelLoop, clearCancelStep, List.filter_cons, hA, ih]

/-- The inline status count of `health_check` agrees with the independent
recursive count. -/
theorem statusCountIn_eq (s : JobStatus) (jobs : List (Nat × Job)) :
    statusCountIn jobs s = countWithStatus s jobs := by
  induction jobs with
  | nil => rfl
  | cons p rest ih =>
    by_cases h : (p.2.status == s) = true
    · simp [statusCountIn, countWithStatus, List.filter_cons, h, ← ih,
        Nat.add_comm]
    · simp only [Bool.not_eq_true] at h
      simp [statusCountIn, countWithStatus, List.filter_cons, h, ← ih]

/-- Claim C9: for every sequence of job creations, the allocated ids are
unique, strictly increasing, never reused, and start at 1: `n` successive
allocations from the initial counter yield exactly `[1, 2, ..., n]` (so the
n-th created job receives id n), and each creation hands out the current
counter value. -/
theorem job_ids_unique_increasing (n : Nat) :
    allocIds 1 n = List.range' 1 n
    ∧ (allocIds 1 n).Pairwise (· < ·)
    ∧ (allocIds 1 n).Nodup
    ∧ (∀ st : RegState, ∀ t : Nat, (create_deduper_job st t).1 = st.job_counter
        ∧ (create_deduper_job st t).2.job_counter = st.job_counter + 1) := by
  refine ⟨allocIds_eq_range' n 1, ?_, ?_, ?_⟩
  · rw [allocIds_eq_range' n 1]
    exact List.pairwise_lt_range' 1 n
  · rw [allocIds_eq_range' n 1]
    exact List.nodup_range' 1 n
  · intro st t
    exact ⟨rfl, rfl⟩

/-- Claim C1, evaluated at the failing interleaving: bulk clear cancels the
still-PENDING job 1 (a terminal state), after which the job's already-spawned
supervisor thread runs `run_deduper_job`, which unconditionally rewrites the
status to RUNNING (deduper.py line 33) and, with a worker exiting 0, ends it
COMPLETED — the record leaves the terminal CANCELLED state. -/
theorem cancelled_job_overwritten_by_supervisor :
    clearCancelLoop (fun _ => false) 1 [(1, newJob 1 0)]
        = ([(1, cancelRecord (newJob 1 0) 1)], [1])
    ∧ (cancelRecord (newJob 1 0) 1).status = JobStatus.cancelled
    ∧ (markRunning (cancelRecord (newJob 1 0) 1) 2).status = JobStatus.running
    ∧ (run_deduper_job cfgFull (SpawnOutcome.exits 0)
        (cancelRecord (newJob 1 0) 1) 2 3).status = JobStatus.completed := by
  decide

/-- Claim C2, evaluated at the failing input: `create_deduper_job` on the
initial state returns id 1 and stores a PENDING record under the `int` key 1,
yet the very first cancel of that id over HTTP returns JOB_NOT_FOUND (404)
and leaves the state untouched, because the route passes the id as the
string "1" and a `str` never equals an `int` dict key. -/
theorem first_cancel_returns_not_found :
    (create_deduper_job initialState 0).1 = 1
    ∧ jobsLookup (create_deduper_job initialState 0).2.jobs (PyKey.int 1)
        = some (newJob 1 0)
    ∧ isActiveStatus (newJob 1 0).status = true
    ∧ cancel_job_http (create_deduper_job initialState 0).2 "1" false 5
        = (CancelResult.notFound, (create_deduper_job initialState 0).2) := by
  decide

/-- Claim C3, evaluated at the failing input: after creating job 1, a dict
lookup with the `int` key 1 would produce the full snapshot, but the HTTP
get route receives the id as the string "1" and returns JOB_NOT_FOUND (404)
for this allocated id. -/
theorem get_created_job_returns_not_found :
    (create_deduper_job initialState 0).1 = 1
    ∧ get_job_status (create_deduper_job initialState 0).2.jobs (PyKey.int 1)
        = GetJobResult.found
            { jobId := PyKey.int 1
              status := JobStatus.pending
              createdAt := 0
              reportId := none
              startedAt := none
              completedAt := none
              exitCode := none
              error := none }
    ∧ get_job_status_http (create_deduper_job initialState 0).2.jobs "1"
        = GetJobResult.notFound := by
  decide

/-- Claim C10 counterexample: the bulk-clear loop's kill block sleeps
`time.sleep(0.5)` (deduper.py line 335), so its grace period is 500 ms,
not the 1-second grace period the claim asserts for every cancellation
path. -/
theorem clear_grace_is_half_second :
    clear_kill_actions true true
        = [ProcAction.terminate, ProcAction.sleepMs 500, ProcAction.kill]
    ∧ graceMs (clear_kill_actions true true) = some 500
    ∧ graceMs (clear_kill_actions true true) ≠ some 1000 := by
  decide

/-- Claim C10 as amended: both cancellation paths, on finding a live process,
first send `terminate()`, then sleep for a fixed grace period — 1000 ms in
the single-job cancel handler but 500 ms in the bulk-clear loop — and call
`kill()` exactly when the process is still alive after that sleep; with no
live process they issue no process-control call. -/
theorem kill_sequences (live alive2 : Bool) :
    graceMs (cancel_kill_actions true alive2) = some 1000
    ∧ graceMs (clear_kill_actions true alive2) = some 500
    ∧ ((ProcAction.kill ∈ cancel_kill_actions live alive2)
        ↔ (live = true ∧ alive2 = true))
    ∧ ((ProcAction.kill ∈ clear_kill_actions live alive2)
        ↔ (live = true ∧ alive2 = true))
    ∧ ((cancel_kill_actions live alive2).head?
        = if live then some ProcAction.terminate else none)
    ∧ ((clear_kill_actions live alive2).head?
        = if live then some ProcAction.terminate else none)
    ∧ cancel_kill_actions false alive2 = []
    ∧ clear_kill_actions false alive2 = [] := by
  cases live <;> cases alive2 <;> decide

/-- Claim C4 counterexample: with the worker path unset, the run's status
history is PENDING → RUNNING → FAILED, so the job is observable as RUNNING,
refuting the claimed direct PENDING → FAILED transition. -/
theorem missing_config_phase_running :
    (run_deduper_job_phases cfgNoPath (SpawnOutcome.exits 0) (newJob 1 0) 1 2).map
        Job.status = [JobStatus.running, JobStatus.failed]
    ∧ JobStatus.running ∈
        (run_deduper_job_phases cfgNoPath (SpawnOutcome.exits 0) (newJob 1 0) 1 2).map
          Job.status
    ∧ (newJob 1 0).status = JobStatus.pending := by
  decide

/-- Claim C4 as amended: a job run with any required configuration value
(worker path, runtime path, or child-process identity token) missing or
empty ends FAILED with a non-empty error, no exit code, and no spawned
process — but it passes through RUNNING on the way, because the supervisor
sets status RUNNING before validating configuration. -/
theorem missing_config_fails_via_running (cfg : Config) (outcome : SpawnOutcome)
    (j : Job) (t1 t2 : Nat)
    (hmiss : (truthy cfg.deduper_path && truthy cfg.python_venv
        && truthy cfg.child_process_name) = false)
    (hexit : j.exit_code = none) (hproc : j.process = false) :
    (run_deduper_job_phases cfg outcome j t1 t2).map Job.status
        = [JobStatus.running, JobStatus.failed]
    ∧ ((run_deduper_job cfg outcome j t1 t2).error.getD "") ≠ ""
    ∧ (run_deduper_job cfg outcome j t1 t2).exit_code = none
    ∧ (run_deduper_job cfg outcome j t1 t2).process = false := by
  by_cases h1 : (!truthy cfg.deduper_path || !truthy cfg.python_venv) = true
  · refine ⟨?_, ?_, ?_, ?_⟩ <;>
      simp [run_deduper_job_phases, run_deduper_job, markRunning, failWith,
        h1, hexit, hproc]
  · have hx : truthy cfg.deduper_path = true := by
      cases h : truthy cfg.deduper_path
      · exact absurd (by simp [h]) h1
      · rfl
    have hy : truthy cfg.python_venv = true := by
      cases h : truthy cfg.python_venv
      · exact absurd (by simp [h]) h1
      · rfl
    have hz : truthy cfg.child_process_name = false := by
      cases h : truthy cfg.child_process_name
      · rfl
      · rw [hx, hy, h] at hmiss
        exact absurd hmiss (by decide)
    refine ⟨?_, ?_, ?_, ?_⟩ <;>
      simp [run_deduper_job_phases, run_deduper_job, markRunning, failWith,
        hx, hy, hz, hexit, hproc]

/-- Witness for `missing_config_fails_via_running` at a concrete input. -/
theorem missing_config_fails_via_running_witness :
    (truthy cfgNoPath.deduper_path && truthy cfgNoPath.python_venv
        && truthy cfgNoPath.child_process_name) = false
    ∧ (newJob 1 0).exit_code = none
    ∧ (newJob 1 0).process = false
    ∧ (run_deduper_job_phases cfgNoPath (SpawnOutcome.raises "boom") (newJob 1 0) 1 2).map
        Job.status = [JobStatus.running, JobStatus.failed]
    ∧ (run_deduper_job cfgNoPath (SpawnOutcome.raises "boom") (newJob 1 0) 1 2).exit_code = none
    ∧ (run_deduper_job cfgNoPath (SpawnOutcome.raises "boom") (newJob 1 0) 1 2).process = false :=
  ⟨by decide, rfl, rfl,
   (missing_config_fails_via_running cfgNoPath (SpawnOutcome.raises "boom")
      (newJob 1 0) 1 2 (by decide) rfl rfl).1,
   (missing_config_fails_via_running cfgNoPath (SpawnOutcome.raises "boom")
      (newJob 1 0) 1 2 (by decide) rfl rfl).2.2.1,
   (missing_config_fails_via_running cfgNoPath (SpawnOutcome.raises "boom")
      (newJob 1 0) 1 2 (by decide) rfl rfl).2.2.2⟩

/-- Claim C5: with complete configuration, a spawned child that exits records
the exit code and a completion timestamp; exit 0 yields COMPLETED, any
nonzero exit yields FAILED, and the `error` field stays unset in both
cases. -/
theorem exit_code_outcome (cfg : Config) (code : Int) (j : Job) (t1 t2 : Nat)
    (hcfg : (truthy cfg.deduper_path && truthy cfg.python_venv
        && truthy cfg.child_process_name) = true)
    (herr : j.error = none) :
    (run_deduper_job cfg (SpawnOutcome.exits code) j t1 t2).exit_code = some code
    ∧ (run_deduper_job cfg (SpawnOutcome.exits code) j t1 t2).completed_at
        = some t2
    ∧ (run_deduper_job cfg (SpawnOutcome.exits code) j t1 t2).error = none
    ∧ (code = 0 →
        (run_deduper_job cfg (SpawnOutcome.exits code) j t1 t2).status
          = JobStatus.completed)
    ∧ (code ≠ 0 →
        (run_deduper_job cfg (SpawnOutcome.exits code) j t1 t2).status
          = JobStatus.failed) := by
  simp only [Bool.and_eq_true] at hcfg
  obtain ⟨⟨hx, hy⟩, hz⟩ := hcfg
  by_cases hc : code = 0
  · refine ⟨?_, ?_, ?_, ?_, ?_⟩ <;>
      simp [run_deduper_job, markRunning, hx, hy, hz, herr, hc]
  · refine ⟨?_, ?_, ?_, ?_, ?_⟩ <;>
      simp [run_deduper_job, markRunning, hx, hy, hz, herr, hc]

/-- Witness for `exit_code_outcome` at a concrete nonzero exit. -/
theorem exit_code_outcome_witness :
    (truthy cfgFull.deduper_path && truthy cfgFull.python_venv
        && truthy cfgFull.child_process_name) = true
    ∧ (newJob 1 0).error = none
    ∧ (run_deduper_job cfgFull (SpawnOutcome.exits 17) (newJob 1 0) 1 2).exit_code
        = some 17
    ∧ (run_deduper_job cfgFull (SpawnOutcome.exits 17) (newJob 1 0) 1 2).completed_at
        = some 2
    ∧ (run_deduper_job cfgFull (SpawnOutcome.exits 17) (newJob 1 0) 1 2).error = none
    ∧ (run_deduper_job cfgFull (SpawnOutcome.exits 17) (newJob 1 0) 1 2).status
        = JobStatus.failed :=
  ⟨by decide, rfl,
   (exit_code_outcome cfgFull 17 (newJob 1 0) 1 2 (by decide) rfl).1,
   (exit_code_outcome cfgFull 17 (newJob 1 0) 1 2 (by decide) rfl).2.1,
   (exit_code_outcome cfgFull 17 (newJob 1 0) 1 2 (by decide) rfl).2.2.1,
   (exit_code_outcome cfgFull 17 (newJob 1 0) 1 2 (by decide) rfl).2.2.2.2
     (by decide)⟩

/-- Claim C6 counterexample: with both paths set but the child-process
identity token unset, `clear_db_table` does not fail with
MISSING_CONFIGURATION — it first cancels the PENDING job 1 (mutating its
status) and only then hits the token check, surfacing as INTERNAL_ERROR. -/
theorem clear_missing_token_cancels_first :
    clear_db_table cfgNoChild (fun _ => false) (ClearOutcome.exits 0 "" "")
        [(1, newJob 1 0)] 1 2
      = (ClearRouteResult.internalError [1]
          "NAME_CHILD_PROCESS_DEDUPER environment variable is required",
         [(1, cancelRecord (newJob 1 0) 1)])
    ∧ (newJob 1 0).status = JobStatus.pending
    ∧ (cancelRecord (newJob 1 0) 1).status = JobStatus.cancelled := by
  decide

/-- Claim C6 as amended: `clear_db_table` fails with MISSING_CONFIGURATION
before attempting any cancellation — leaving the registry untouched — when
the worker path or the runtime path is missing or empty; a missing
child-process identity token is only detected after the cancellation loop
and yields INTERNAL_ERROR with the jobs already cancelled. -/
theorem clear_missing_paths_no_cancellation (cfg : Config)
    (throwsOn : Nat → Bool) (outcome : ClearOutcome)
    (jobs : List (Nat × Job)) (tc tr : Nat)
    (h : truthy cfg.deduper_path = false ∨ truthy cfg.python_venv = false) :
    clear_db_table cfg throwsOn outcome jobs tc tr
      = (ClearRouteResult.missingConfiguration, jobs) := by
  rcases h with h | h <;> simp [clear_db_table, h]

/-- Witness for `clear_missing_paths_no_cancellation` at a concrete input. -/
theorem clear_missing_paths_no_cancellation_witness :
    (truthy cfgNoPath.deduper_path = false ∨ truthy cfgNoPath.python_venv = false)
    ∧ clear_db_table cfgNoPath (fun _ => false) ClearOutcome.timesOut
        [(1, newJob 1 0)] 1 2
      = (ClearRouteResult.missingConfiguration, [(1, newJob 1 0)]) :=
  ⟨Or.inl rfl,
   clear_missing_paths_no_cancellation cfgNoPath (fun _ => false)
     ClearOutcome.timesOut [(1, newJob 1 0)] 1 2 (Or.inl rfl)⟩

/-- Claim C7: with complete configuration and a clear subcommand exiting 0,
`clear_db_table` cancels every PENDING/RUNNING job whose kill block does not
raise (a per-job failure skips only that job, never the rest of the loop),
leaves terminal jobs unchanged, and returns success with exactly the list of
cancelled ids, the exit code, the captured output, and a timestamp. -/
theorem clear_all_cancels_active (cfg : Config) (throwsOn : Nat → Bool)
    (out err : String) (jobs : List (Nat × Job)) (tc tr : Nat)
    (hcfg : (truthy cfg.deduper_path && truthy cfg.python_venv
        && truthy cfg.child_process_name) = true) :
    (clear_db_table cfg throwsOn (ClearOutcome.exits 0 out err) jobs tc tr).1
      = ClearRouteResult.ok
          { cleared := true
            cancelledJobs := (jobs.filter
                (fun p => isActiveStatus p.2.status && !throwsOn p.1)).map
              Prod.fst
            exitCode := 0
            stdout := out
            stderr := err
            timestamp := tr }
    ∧ (clear_db_table cfg throwsOn (ClearOutcome.exits 0 out err) jobs tc tr).2
        = jobs.map (clearCancelStep throwsOn tc)
    ∧ (∀ p ∈ jobs, isActiveStatus p.2.status = false →
        p ∈ (clear_db_table cfg throwsOn (ClearOutcome.exits 0 out err) jobs tc tr).2)
    ∧ (∀ p ∈ jobs, isActiveStatus p.2.status = true → throwsOn p.1 = false →
        (p.1, cancelRecord p.2 tc)
          ∈ (clear_db_table cfg throwsOn (ClearOutcome.exits 0 out err) jobs tc tr).2) := by
  simp only [Bool.and_eq_true] at hcfg
  obtain ⟨⟨hx, hy⟩, hz⟩ := hcfg
  have hmain :
      (clear_db_table cfg throwsOn (ClearOutcome.exits 0 out err) jobs tc tr).2
        = jobs.map (clearCancelStep throwsOn tc) := by
    simp [clear_db_table, hx, hy, hz, clearCancelLoop_eq]
  refine ⟨?_, hmain, ?_, ?_⟩
  · simp [clear_db_table, hx, hy, hz, clearCancelLoop_eq]
  · intro p hp hterm
    rw [hmain]
    have hstep : clearCancelStep throwsOn tc p = p := by
      simp [clearCancelStep, hterm]
    exact hstep ▸ List.mem_map_of_mem (clearCancelStep throwsOn tc) hp
  · intro p hp hact hthrow
    rw [hmain]
    have hstep : clearCancelStep throwsOn tc p = (p.1, cancelRecord p.2 tc) := by
      simp [clearCancelStep, hact, hthrow]
    exact hstep ▸ List.mem_map_of_mem (clearCancelStep throwsOn tc) hp

/-- Witness for `clear_all_cancels_active` on the demonstration registry:
jobs 1 and 3 are reported cancelled and end CANCELLED, the COMPLETED job 2
is untouched, and the response carries exit code 0 with the captured
output. -/
theorem clear_all_cancels_active_witness :
    (truthy cfgFull.deduper_path && truthy cfgFull.python_venv
        && truthy cfgFull.child_process_name) = true
    ∧ (clear_db_table cfgFull (fun _ => false) (ClearOutcome.exits 0 "ok" "")
          demoJobs 7 9).1
      = ClearRouteResult.ok
          { cleared := true
            cancelledJobs := [1, 3]
            exitCode := 0
            stdout := "ok"
            stderr := ""
            timestamp := 9 } :=
  ⟨by decide,
   (clear_all_cancels_active cfgFull (fun _ => false) "ok" "" demoJobs 7 9
      (by decide)).1⟩

/-- Claim C8: the health report echoes the configuration-presence flags,
computes the per-status job counts from a scan of the registry, mutates no
registry state, and reports overall status "unhealthy" exactly when the
worker path is configured (truthy) but missing on the filesystem; an
unconfigured worker path alone leaves the status "healthy". -/
theorem health_report_spec (cfg : Config) (pathExists : String → Bool)
    (st : RegState) :
    (health_route cfg pathExists st).2 = st
    ∧ (health_check cfg pathExists st.jobs).deduper_path_configured
        = truthy cfg.deduper_path
    ∧ (health_check cfg pathExists st.jobs).python_venv_configured
        = truthy cfg.python_venv
    ∧ (health_check cfg pathExists st.jobs).total = st.jobs.length
    ∧ (health_check cfg pathExists st.jobs).pending
        = countWithStatus JobStatus.pending st.jobs
    ∧ (health_check cfg pathExists st.jobs).running
        = countWithStatus JobStatus.running st.jobs
    ∧ (health_check cfg pathExists st.jobs).completed
        = countWithStatus JobStatus.completed st.jobs
    ∧ (health_check cfg pathExists st.jobs).failed
        = countWithStatus JobStatus.failed st.jobs
    ∧ (health_check cfg pathExists st.jobs).cancelled
        = countWithStatus JobStatus.cancelled st.jobs
    ∧ ((health_check cfg pathExists st.jobs).status = "unhealthy"
        ↔ pathMissing cfg pathExists = true)
    ∧ (truthy cfg.deduper_path = false →
        (health_check cfg pathExists st.jobs).status = "healthy") := by
  cases hd : cfg.deduper_path with
  | none =>
    refine ⟨rfl, ?_, ?_, ?_, ?_, ?_, ?_, ?_, ?_, ?_, ?_⟩ <;>
      simp [health_check, pathMissing, hd, statusCountIn_eq]
  | some p =>
    by_cases hp : (p == "") = true
    · refine ⟨rfl, ?_, ?_, ?_, ?_, ?_, ?_, ?_, ?_, ?_, ?_⟩ <;>
        simp [health_check, pathMissing, truthy, hd, hp, statusCountIn_eq]
    · by_cases he : pathExists p = true
      · refine ⟨rfl, ?_, ?_, ?_, ?_, ?_, ?_, ?_, ?_, ?_, ?_⟩ <;>
          simp [health_check, pathMissing, truthy, hd, hp, he, statusCountIn_eq]
      · simp only [Bool.not_eq_true] at he
        refine ⟨rfl, ?_, ?_, ?_, ?_, ?_, ?_, ?_, ?_, ?_, ?_⟩ <;>
          simp [health_check, pathMissing, truthy, hd, hp, he, statusCountIn_eq]

/-- Witness for `health_report_spec` at a concrete input. -/
theorem health_report_spec_witness :
    (health_route cfgNoPath (fun _ => false)
        { job_counter := 4, jobs := demoJobs }).2
      = { job_counter := 4, jobs := demoJobs }
    ∧ (health_check cfgNoPath (fun _ => false) demoJobs).pending
        = countWithStatus JobStatus.pending demoJobs :=
  ⟨(health_report_spec cfgNoPath (fun _ => false)
      { job_counter := 4, jobs := demoJobs }).1,
   (health_report_spec cfgNoPath (fun _ => false)
      { job_counter := 4, jobs := demoJobs }).2.2.2.2.1⟩
